import Mathlib

/-!
Shallow embedding of the WhatsApp session / chat-cache coordinator of
`src/backend/src/whatsapp/whatsapp.service.ts` (the feature-complete variant
of the service: per-(session, archived-partition) chat cache, 30 s fetch
throttle with backoff on timeout, last-seen unread override) together with
the status-response construction of `whatsapp.controller.ts`.

Conventions of the embedding:
* JavaScript `Map<string, V>` becomes an association list `List (String × V)`
  with `alookup` / `aset` / `aerase` mirroring `get` / `set` / `delete`.
* Timestamps (`Date.now()`, message timestamps) are integers; every call that
  reads the clock takes the observed instants as explicit parameters.
* The asynchronous fetch against the underlying driver is an oracle
  parameter `FetchOutcome` (the upstream chat list, or a timeout of the
  `Promise.race`); the boolean `fetchAttempted` in the result records whether
  the upstream `client.getChats()` call was issued.
* JavaScript truthiness of numbers (`0` falsy) and strings (`""` falsy) is
  modelled explicitly at each use site.
-/

namespace WaSched

/-- `Map.get` on an association list (first binding wins, as keys are unique
in the states we build). -/
def alookup {α : Type} : List (String × α) → String → Option α
  | [], _ => none
  | (k', v) :: rest, k => if k' = k then some v else alookup rest k

/-- `Map.set` on an association list: replace the binding in place if the key
is present, otherwise append a fresh binding. -/
def aset {α : Type} : List (String × α) → String → α → List (String × α)
  | [], k, v => [(k, v)]
  | (k', v') :: rest, k, v =>
      if k' = k then (k', v) :: rest else (k', v') :: aset rest k v

/-- `Map.delete` on an association list (removes the first binding). -/
def aerase {α : Type} : List (String × α) → String → List (String × α)
  | [], _ => []
  | (k', v') :: rest, k => if k' = k then rest else (k', v') :: aerase rest k

theorem alookup_aset_self {α : Type} (m : List (String × α)) (k : String) (v : α) :
    alookup (aset m k v) k = some v := by
  induction m with
  | nil => simp [aset, alookup]
  | cons h t ih =>
      obtain ⟨k', v'⟩ := h
      by_cases hk : k' = k
      · simp [aset, alookup, hk]
      · simp [aset, alookup, hk, ih]

theorem alookup_aset_ne {α : Type} (m : List (String × α)) (k k' : String) (v : α)
    (h : k ≠ k') : alookup (aset m k v) k' = alookup m k' := by
  induction m with
  | nil => simp [aset, alookup, h]
  | cons hd t ih =>
      obtain ⟨k₀, v₀⟩ := hd
      by_cases hk : k₀ = k
      · subst hk
        simp [aset, alookup, h]
      · simp [aset, alookup, hk, ih]

/-! ## Data model -/

/-- The lifecycle status of a session (`WhatsAppSession.status`). -/
inductive SessStatus
  | connecting
  | qr
  | authenticating
  | ready
  | disconnected
deriving DecidableEq, Repr

/-- A registry entry: `WhatsAppSession` as far as behaviour is concerned
(the stored QR data URL, present or not, and whether `session.client`
has been attached). -/
structure SessionModel where
  status : SessStatus
  qrCode : Option String
  hasClient : Bool
deriving DecidableEq, Repr

/-- Closed set of `whatsapp-web.js` `MessageTypes` values the service
branches on. -/
inductive MsgType
  | chat
  | sticker
  | image
  | video
  | audio
  | voice
  | document
  | location
  | contactCard
  | contactCardMulti
  | other
deriving DecidableEq, Repr

/-- The `chat.lastMessage` digest consumed by `getChats`: body, timestamp in
seconds (upstream unit), direction flag and message type. -/
structure LastMsg where
  body : String
  timestamp : Int
  fromMe : Bool
  mtype : MsgType
deriving DecidableEq, Repr

/-- The upstream raw chat record, restricted to the fields `getChats`
reads: `id._serialized`, `id.user`, `name`, `isGroup`, `archived`,
`lastMessage`, `unreadCount`. -/
structure RawChat where
  id : String
  user : String
  name : Option String
  isGroup : Bool
  archived : Bool
  lastMessage : Option LastMsg
  unreadCount : Nat
deriving DecidableEq, Repr

/-- Outgoing last-message digest of a `WhatsAppChat` (timestamp already
converted to milliseconds). -/
structure LastMsgOut where
  body : String
  timestamp : Int
  fromMe : Bool
deriving DecidableEq, Repr

/-- The formatted `WhatsAppChat` item returned by `getChats`. -/
structure WhatsAppChat where
  id : String
  name : String
  isGroup : Bool
  lastMessage : Option LastMsgOut
  unreadCount : Nat
deriving DecidableEq, Repr

/-- A `chatCache` entry: the ordered snapshot plus its creation timestamp. -/
structure CacheEntry where
  chats : List RawChat
  timestamp : Int
deriving DecidableEq, Repr

/-- The mutable fields of `WhatsappService` touched by the operations under
study: `sessions`, `chatCache`, `lastFetchTime`, `lastSeenMessages`. -/
structure ServiceState where
  sessions : List (String × SessionModel)
  chatCache : List (String × CacheEntry)
  lastFetchTime : List (String × Int)
  lastSeenMessages : List (String × List (String × Int))
deriving DecidableEq, Repr

/-! ## formatPhoneNumber (service lines 52-62) -/

/-- `formatPhoneNumber`: strip every non-digit character (`replace(/\D/g, '')`),
then prefix `+` unless the digit string already starts with `+`
(`startsWith('+')` is modelled as the first character being `'+'`). -/
def formatPhoneNumber (rawNumber : String) : String :=
  let digits : String := ⟨rawNumber.data.filter (fun c => c.isDigit)⟩
  if digits.data.take 1 ≠ ['+'] then "+" ++ digits else digits

/-! ## getChats formatting pipeline (service lines 395-461) -/

/-- The per-chat last-seen override read: `lastSeenMessages.get(sessionId)`
followed by `sessionLastSeen?.get(chatId)` (absent session map behaves as an
empty map). -/
def lastSeenFor (st : ServiceState) (sessionId chatId : String) : Option Int :=
  alookup ((alookup st.lastSeenMessages sessionId).getD []) chatId

/-- Last-message body placeholder mapping of lines 420-437 (empty-string body
is falsy, so `lastMessageBody || 'Image'` falls back to the placeholder). -/
def formatLastBody (m : LastMsg) : String :=
  match m.mtype with
  | .sticker => "Sticker"
  | .image => if m.body = "" then "Image" else m.body
  | .video => if m.body = "" then "Video" else m.body
  | .audio => if m.body = "" then "Audio" else m.body
  | .voice => if m.body = "" then "Audio" else m.body
  | .document => if m.body = "" then "Document" else m.body
  | .location => if m.body = "" then "Location" else m.body
  | .contactCard => if m.body = "" then "Contact" else m.body
  | .contactCardMulti => if m.body = "" then "Contact" else m.body
  | _ => m.body

/-- Per-chat formatting of lines 404-451: manual last-seen override of the
upstream unread counter (`lastSeenTimestamp` truthiness means present and
non-zero), `chat.name || chat.id.user` name fallback, and the
seconds-to-milliseconds conversion of the last-message timestamp. -/
def formatChat (lastSeen : Option Int) (c : RawChat) : WhatsAppChat :=
  let unread : Nat :=
    match lastSeen, c.lastMessage with
    | some t, some m =>
        if t ≠ 0 ∧ m.fromMe = false ∧ m.timestamp * 1000 ≤ t then 0
        else c.unreadCount
    | _, _ => c.unreadCount
  { id := c.id
    name :=
      match c.name with
      | some n => if n = "" then c.user else n
      | none => c.user
    isGroup := c.isGroup
    lastMessage := c.lastMessage.map fun m =>
      { body := formatLastBody m, timestamp := m.timestamp * 1000, fromMe := m.fromMe }
    unreadCount := unread }

/-- The page returned by `getChats`. -/
structure ChatsPage where
  chats : List WhatsAppChat
  hasMore : Bool
  total : Nat
deriving DecidableEq, Repr

/-- Pagination and formatting of the ordered snapshot (lines 395-461):
`allChats.slice(offset, offset + limit)`, per-chat formatting, and
`hasMore = offset + limit < allChats.length`. -/
def paginateAndFormat (seen : List (String × Int)) (allChats : List RawChat)
    (offset limit : Nat) : ChatsPage :=
  let paginated := (allChats.drop offset).take limit
  { chats := paginated.map fun c => formatChat (alookup seen c.id) c
    hasMore := decide (offset + limit < allChats.length)
    total := allChats.length }

/-- Sort key of the comparator at lines 381-385:
`lastMessage?.timestamp || 0`. -/
def lastTs (c : RawChat) : Int :=
  match c.lastMessage with
  | some m => m.timestamp
  | none => 0

/-- Insertion step of the descending sort by last-message timestamp. -/
def insertDesc (c : RawChat) : List RawChat → List RawChat
  | [] => [c]
  | x :: xs => if lastTs x < lastTs c then c :: x :: xs else x :: insertDesc c xs

/-- `allChats.sort((a, b) => bTime - aTime)`: descending by last-message
timestamp. -/
def sortChatsDesc : List RawChat → List RawChat
  | [] => []
  | x :: xs => insertDesc x (sortChatsDesc xs)

/-! ## getChats cache / throttle coordinator (service lines 302-474) -/

/-- Resolution of the `Promise.race` between the upstream `client.getChats()`
and the 15 s timer: either the upstream chat list (pre-filter) or a timeout. -/
inductive FetchOutcome
  | ok (upstream : List RawChat)
  | timeout
deriving DecidableEq, Repr

/-- The error classes `getChats` can throw: `'WhatsApp session not ready'`,
`'WhatsApp session has been disconnected. Please reconnect.'`,
`'WhatsApp is rate limiting requests. …'`. -/
inductive ChatsErr
  | notReady
  | disconnected
  | rateLimited
deriving DecidableEq, Repr

deriving instance DecidableEq for Except

/-- Result of one `getChats` call: the returned page or thrown error, the
service state afterwards, and whether the upstream `client.getChats()` call
was issued. -/
structure GetChatsOut where
  result : Except ChatsErr ChatsPage
  state : ServiceState
  fetchAttempted : Bool
deriving DecidableEq, Repr

/-- Cache key of line 313: `` `${sessionId}-${archived ? 'archived' : 'normal'}` ``. -/
def cacheKey (sessionId : String) (archived : Bool) : String :=
  sessionId ++ "-" ++ (if archived then "archived" else "normal")

/-- `forceCleanupSession` (lines 269-286): fire-and-forget client destroy,
then `sessions.delete(sessionId)`, `chatCache.delete(sessionId)` and
`lastFetchTime.delete(sessionId)` — note the chat-cache delete uses the bare
session id, exactly as in the source, while cache entries are stored under
`cacheKey`. `lastSeenMessages` is not touched. -/
def forceCleanupSession (st : ServiceState) (sessionId : String) : ServiceState :=
  { st with
    sessions := aerase st.sessions sessionId
    chatCache := aerase st.chatCache sessionId
    lastFetchTime := aerase st.lastFetchTime sessionId }

/-- Lines 398-401 followed by the map at 404: initialize the per-session
last-seen map if absent, then serve the formatted page from the snapshot. -/
def serveFromList (st : ServiceState) (sessionId : String) (allChats : List RawChat)
    (offset limit : Nat) (attempted : Bool) : GetChatsOut :=
  let st' :=
    if (alookup st.lastSeenMessages sessionId).isSome then st
    else { st with lastSeenMessages := aset st.lastSeenMessages sessionId [] }
  { result := .ok (paginateAndFormat ((alookup st.lastSeenMessages sessionId).getD [])
      allChats offset limit)
    state := st'
    fetchAttempted := attempted }

/-- The fetch branch of `getChats` (lines 328-392): page-validity check,
attempt-timestamp write *before* the upstream call, the race against the
timeout, the constant-base backoff computation of lines 364-367, stale-cache
fallback, and sort-and-store of fresh data. `now` is `Date.now()` at the
synchronous prefix, `fetchEnd` is `Date.now()` when the race resolves. -/
def getChatsFetch (st : ServiceState) (sessionId : String) (offset limit : Nat)
    (archived : Bool) (now fetchEnd : Int) (pageClosed : Bool)
    (outcome : FetchOutcome) (cached : Option CacheEntry) : GetChatsOut :=
  if pageClosed then
    { result := .error .disconnected
      state := forceCleanupSession st sessionId
      fetchAttempted := false }
  else
    let st1 := { st with lastFetchTime := aset st.lastFetchTime sessionId now }
    match outcome with
    | .ok upstream =>
        let allChats :=
          if archived then upstream.filter (fun c => c.archived)
          else upstream.filter (fun c => !c.archived)
        let st2 := { st1 with lastFetchTime := aset st1.lastFetchTime sessionId fetchEnd }
        let sorted := sortChatsDesc allChats
        let st3 := { st2 with
          chatCache := aset st2.chatCache (cacheKey sessionId archived)
            { chats := sorted, timestamp := fetchEnd } }
        serveFromList st3 sessionId sorted offset limit true
    | .timeout =>
        let currentInterval : Int := 30000
        let backoffInterval : Int := min (currentInterval * 2) 300000
        let st2 := { st1 with
          lastFetchTime := aset st1.lastFetchTime sessionId
            (fetchEnd + backoffInterval - 30000) }
        match cached with
        | some c => serveFromList st2 sessionId c.chats offset limit true
        | none =>
            { result := .error .rateLimited, state := st2, fetchAttempted := true }

/-- The body of `getChats` after the ready check (lines 312-461): serve the
cache when it is fresh (`cacheAge < 120000`) or the throttle is engaged
(`timeSinceLastFetch < 30000`, with `lastFetchTime.get(sessionId) || 0`);
otherwise go to the fetch branch. Note the cache branch requires a cache
entry to exist: with no entry the fetch branch is taken unconditionally. -/
def getChatsAuthed (st : ServiceState) (sessionId : String) (offset limit : Nat)
    (archived : Bool) (now fetchEnd : Int) (pageClosed : Bool)
    (outcome : FetchOutcome) : GetChatsOut :=
  let cached := alookup st.chatCache (cacheKey sessionId archived)
  let lastFetch := (alookup st.lastFetchTime sessionId).getD 0
  match cached with
  | some c =>
      if now - c.timestamp < 120000 ∨ now - lastFetch < 30000 then
        serveFromList st sessionId c.chats offset limit false
      else
        getChatsFetch st sessionId offset limit archived now fetchEnd pageClosed
          outcome (some c)
  | none =>
      getChatsFetch st sessionId offset limit archived now fetchEnd pageClosed
        outcome none

/-- `getChats` (lines 302-474): not-ready guard
(`!session || !session.client || session.status !== 'ready'`) followed by the
cache/throttle coordinator. -/
def getChats (st : ServiceState) (sessionId : String) (offset limit : Nat)
    (archived : Bool) (now fetchEnd : Int) (pageClosed : Bool)
    (outcome : FetchOutcome) : GetChatsOut :=
  match alookup st.sessions sessionId with
  | none => { result := .error .notReady, state := st, fetchAttempted := false }
  | some sess =>
      if sess.status = SessStatus.ready ∧ sess.hasClient = true then
        getChatsAuthed st sessionId offset limit archived now fetchEnd pageClosed outcome
      else
        { result := .error .notReady, state := st, fetchAttempted := false }

/-! ## sendMessage / markChatAsRead (service lines 228-250 and 633-660) -/

/-- `sendMessage` state effect on success (lines 228-250): after the upstream
send resolves, `chatCache.delete(sessionId)` — the bare session id, exactly
as in the source. Not-ready sessions throw. -/
def sendMessage (st : ServiceState) (sessionId : String) :
    Except ChatsErr ServiceState :=
  match alookup st.sessions sessionId with
  | none => .error .notReady
  | some sess =>
      if sess.status = SessStatus.ready ∧ sess.hasClient = true then
        .ok { st with chatCache := aerase st.chatCache sessionId }
      else
        .error .notReady

/-- `markChatAsRead` state effect on success (lines 633-660): after
`chat.sendSeen()`, record `Date.now()` in
`lastSeenMessages[sessionId][chatId]` (initializing the per-session map if
absent). The chat cache is not touched. -/
def markChatAsRead (st : ServiceState) (sessionId chatId : String) (now : Int) :
    Except ChatsErr ServiceState :=
  match alookup st.sessions sessionId with
  | none => .error .notReady
  | some sess =>
      if sess.status = SessStatus.ready ∧ sess.hasClient = true then
        .ok { st with
              lastSeenMessages := aset st.lastSeenMessages sessionId
                (aset ((alookup st.lastSeenMessages sessionId).getD []) chatId now) }
      else
        .error .notReady

/-! ## createSession (service lines 64-206) -/

/-- Result of the synchronous prefix of `createSession`. -/
structure CreateOut where
  registry : List (String × SessionModel)
  session : SessionModel
  constructedClient : Bool
deriving DecidableEq, Repr

/-- The synchronous prefix of `createSession` (lines 64-80): if the registry
already holds the identifier, return that session and construct nothing;
otherwise register a fresh `connecting` session and proceed to construct the
underlying `Client`. This prefix runs before any `await`, so any re-entrant
call observes the inserted entry. -/
def createSessionPhase1 (reg : List (String × SessionModel)) (sessionId : String) :
    CreateOut :=
  match alookup reg sessionId with
  | some s => { registry := reg, session := s, constructedClient := false }
  | none =>
      let s : SessionModel :=
        { status := .connecting, qrCode := none, hasClient := false }
      { registry := aset reg sessionId s, session := s, constructedClient := true }

/-- The asynchronous remainder of `createSession` (lines 82-205): attach the
constructed client to the registered session; a failure of
`client.initialize()` marks the session `disconnected` but keeps it
registered. -/
def createSessionPhase2 (reg : List (String × SessionModel)) (sessionId : String)
    (initOk : Bool) : List (String × SessionModel) :=
  match alookup reg sessionId with
  | some s =>
      if initOk then aset reg sessionId { s with hasClient := true }
      else aset reg sessionId { s with hasClient := true, status := .disconnected }
  | none => reg

/-! ## Lifecycle events and status responses
(service lines 110-193, controller lines 52-75) -/

/-- The driver events the service subscribes to, plus the 30 s
stuck-in-connecting guard timer. -/
inductive SessEvent
  | qrIssued (payload : Option String)
  | authenticated
  | ready
  | authFailure
  | disconnectedEv
  | guardTimeout
deriving DecidableEq, Repr

/-- The event handlers of lines 110-193 as a step function on one session;
`none` means the handler removed the session from the registry
(`disconnected`). The `qr` handler stores the encoded payload (or a null
payload when encoding failed) and enters the QR state; `authenticated`,
`ready` and `auth_failure` each clear the stored QR; the guard timer forces
`connecting → qr` without touching the stored payload. -/
def applyEvent (s : SessionModel) : SessEvent → Option SessionModel
  | .qrIssued p => some { s with status := .qr, qrCode := p }
  | .authenticated => some { s with status := .authenticating, qrCode := none }
  | .ready => some { s with status := .ready, qrCode := none }
  | .authFailure => some { s with status := .disconnected, qrCode := none }
  | .disconnectedEv => none
  | .guardTimeout =>
      if s.status = .connecting then some { s with status := .qr } else some s

/-- The response body shared by the `status` and `qr` endpoints. -/
structure StatusResponse where
  status : SessStatus
  qrCode : Option String
deriving DecidableEq, Repr

/-- Response construction of controller lines 65-75 (and identically 33-42):
`qrCode` is attached only under `session.status === 'qr' && session.qrCode`
(string truthiness: a present empty string is falsy). -/
def buildStatusResponse (s : SessionModel) : StatusResponse :=
  { status := s.status
    qrCode :=
      match s.status, s.qrCode with
      | .qr, some q => if q = "" then none else some q
      | _, _ => none }

/-! ## Concrete sample states used by the counterexample / evaluation
theorems -/

/-- A session in the `ready` state with an attached client. -/
def readySession : SessionModel :=
  { status := .ready, qrCode := none, hasClient := true }

/-- A representative upstream chat record. -/
def sampleChat : RawChat :=
  { id := "111@c.us", user := "111", name := some "Alice", isGroup := false
    archived := false
    lastMessage := some { body := "hi", timestamp := 1700000000, fromMe := false, mtype := .chat }
    unreadCount := 2 }

/-- A cache entry for the non-archived partition of session `s`. -/
def sampleEntry : CacheEntry := { chats := [sampleChat], timestamp := 1000000 }

/-- Ready session `s`, no cache, no recorded fetch. -/
def noCacheState : ServiceState :=
  { sessions := [("s", readySession)], chatCache := [], lastFetchTime := []
    lastSeenMessages := [] }

/-- Ready session `s`, no cache, fetch attempt recorded at `1000000`. -/
def throttledNoCacheState : ServiceState :=
  { sessions := [("s", readySession)], chatCache := [], lastFetchTime := [("s", 1000000)]
    lastSeenMessages := [] }

/-- Ready session `s` with a fresh non-archived cache entry. -/
def cachedState : ServiceState :=
  { sessions := [("s", readySession)], chatCache := [("s-normal", sampleEntry)]
    lastFetchTime := [("s", 1000000)], lastSeenMessages := [] }

/-- Ready session `s` with a stale non-archived cache entry and an old fetch
timestamp. -/
def staleCachedState : ServiceState :=
  { sessions := [("s", readySession)]
    chatCache := [("s-normal", { chats := [sampleChat], timestamp := 0 })]
    lastFetchTime := [("s", 0)], lastSeenMessages := [] }

/-- Ready session `s` with entries in every table, for the forced-cleanup
evaluation. -/
def cleanupState : ServiceState :=
  { sessions := [("s", readySession)]
    chatCache := [("s-normal", sampleEntry), ("s-archived", { chats := [], timestamp := 5 })]
    lastFetchTime := [("s", 5)], lastSeenMessages := [("s", [("c", 7)])] }

/-! ## Helper lemmas -/

theorem serveFromList_fetchAttempted (st : ServiceState) (sessionId : String)
    (allChats : List RawChat) (offset limit : Nat) (b : Bool) :
    (serveFromList st sessionId allChats offset limit b).fetchAttempted = b := rfl

theorem serveFromList_chatCache (st : ServiceState) (sessionId : String)
    (allChats : List RawChat) (offset limit : Nat) (b : Bool) :
    (serveFromList st sessionId allChats offset limit b).state.chatCache = st.chatCache := by
  unfold serveFromList
  by_cases h : (alookup st.lastSeenMessages sessionId).isSome <;> simp [h]

theorem serveFromList_lastFetchTime (st : ServiceState) (sessionId : String)
    (allChats : List RawChat) (offset limit : Nat) (b : Bool) :
    (serveFromList st sessionId allChats offset limit b).state.lastFetchTime
      = st.lastFetchTime := by
  unfold serveFromList
  by_cases h : (alookup st.lastSeenMessages sessionId).isSome <;> simp [h]

theorem formatChat_unreadCount_of_lastSeen (t : Int) (c : RawChat) (m : LastMsg)
    (hm : c.lastMessage = some m) :
    (formatChat (some t) c).unreadCount =
      if t ≠ 0 ∧ m.fromMe = false ∧ m.timestamp * 1000 ≤ t then 0
      else c.unreadCount := by
  simp [formatChat, hm]

/-! ## C10 — formatPhoneNumber always prefixes `+` to exactly the digits -/

/-- C10: for every input string, `formatPhoneNumber` returns `'+'` followed by
exactly the digit characters of the input in order; since `replace(/\D/g, '')`
strips every non-digit (including any `'+'`), the stripped string can never
start with `'+'`, so the no-prefix branch is unreachable. -/
theorem formatPhoneNumber_plus_digits (raw : String) :
    formatPhoneNumber raw = ⟨'+' :: raw.data.filter (fun c => c.isDigit)⟩ := by
  unfold formatPhoneNumber
  have h : (raw.data.filter (fun c => c.isDigit)).take 1 ≠ ['+'] := by
    intro h
    have hmem : '+' ∈ raw.data.filter (fun c => c.isDigit) :=
      List.take_subset 1 _ (h ▸ List.mem_singleton_self '+')
    have hd : ('+' : Char).isDigit = true := by
      simpa using (List.mem_filter.mp hmem).2
    simp at hd
  simp only [ne_eq, h, not_false_eq_true, if_pos]
  rfl

/-! ## C6 — pagination slices compose and hasMore formula -/

/-- C6: against one unchanged cache snapshot, the items of
`listChats(offset=0, limit=20)` followed by `listChats(offset=20, limit=20)`
concatenate in order to the items of `listChats(offset=0, limit=40)` (hence
the two pages are disjoint, order-consistent segments of the snapshot), and
for every offset and limit `hasMore = (offset + limit < total)` with
`total` the snapshot length. -/
theorem paginate_slices_compose (seen : List (String × Int)) (snapshot : List RawChat) :
    (paginateAndFormat seen snapshot 0 20).chats
        ++ (paginateAndFormat seen snapshot 20 20).chats
      = (paginateAndFormat seen snapshot 0 40).chats
    ∧ ∀ offset limit : Nat,
        (paginateAndFormat seen snapshot offset limit).hasMore
            = decide (offset + limit < snapshot.length)
        ∧ (paginateAndFormat seen snapshot offset limit).total = snapshot.length := by
  refine ⟨?_, fun offset limit => ⟨rfl, rfl⟩⟩
  simp only [paginateAndFormat, List.drop_zero]
  rw [← List.map_append]
  congr 1
  calc snapshot.take 20 ++ (snapshot.drop 20).take 20
      = snapshot.take (20 + 20) := (List.take_add snapshot 20 20).symm
    _ = snapshot.take 40 := by norm_num

/-! ## C7 — createSession is idempotent, at most one client construction -/

/-- C7: a second `createSession` call with the same identifier, issued either
right after the synchronous registration prefix of the first call (creation
in flight) or after the client was attached (creation complete), returns the
session already held by the registry and constructs no second client; the
registry is left unchanged by the second call. -/
theorem createSession_idempotent (reg : List (String × SessionModel))
    (sessionId : String) (initOk : Bool) :
    (createSessionPhase1 (createSessionPhase1 reg sessionId).registry sessionId).constructedClient
        = false
    ∧ (createSessionPhase1 (createSessionPhase1 reg sessionId).registry sessionId).session
        = (createSessionPhase1 reg sessionId).session
    ∧ (createSessionPhase1 (createSessionPhase1 reg sessionId).registry sessionId).registry
        = (createSessionPhase1 reg sessionId).registry
    ∧ (createSessionPhase1
        (createSessionPhase2 (createSessionPhase1 reg sessionId).registry sessionId initOk)
        sessionId).constructedClient = false := by
  cases h : alookup reg sessionId with
  | some s =>
      cases initOk <;>
        simp [createSessionPhase1, createSessionPhase2, h, alookup_aset_self]
  | none =>
      cases initOk <;>
        simp [createSessionPhase1, createSessionPhase2, h, alookup_aset_self]

/-! ## C9 — QR payload readable only in the QR state -/

/-- C9: the status/qr endpoints attach a `qrCode` only when the session status
is the QR state (in every other state the response's QR payload is `none`),
and the `authenticated`, `ready` and `auth_failure` handlers each clear the
stored QR payload on transition. -/
theorem qrCode_only_in_qr_state (s : SessionModel) :
    (s.status ≠ SessStatus.qr → (buildStatusResponse s).qrCode = none)
    ∧ applyEvent s .authenticated
        = some { s with status := .authenticating, qrCode := none }
    ∧ applyEvent s .ready = some { s with status := .ready, qrCode := none }
    ∧ applyEvent s .authFailure
        = some { s with status := .disconnected, qrCode := none } := by
  refine ⟨fun h => ?_, rfl, rfl, rfl⟩
  unfold buildStatusResponse
  cases hs : s.status <;> cases hq : s.qrCode <;> simp_all

/-- Witness for C9 at a concrete non-QR session holding a stored payload. -/
theorem qrCode_only_in_qr_state_witness :
    (buildStatusResponse { status := .connecting, qrCode := some "QRDATA", hasClient := true }).qrCode
      = none :=
  (qrCode_only_in_qr_state
    { status := .connecting, qrCode := some "QRDATA", hasClient := true }).1 (by decide)

/-! ## C5 — manual mark-read overrides the upstream unread counter -/

/-- C5: once `markChatAsRead` has recorded time `T'` (a positive clock value,
as `Date.now()` always is) for a chat whose last message is not from the
session owner, every subsequent `listChats` report of that chat shows
`unreadCount = 0` as long as the last non-self message's timestamp (in
milliseconds) is at most `T'`; as soon as the chat's last non-self message is
strictly newer than `T'`, the report shows the upstream counter again. -/
theorem markChatAsRead_unread_override
    (st st' : ServiceState) (sessionId chatId : String) (tmark : Int)
    (c : RawChat) (m : LastMsg)
    (hrec : markChatAsRead st sessionId chatId tmark = .ok st')
    (hid : c.id = chatId)
    (hpos : 0 < tmark)
    (hm : c.lastMessage = some m)
    (hfm : m.fromMe = false) :
    (m.timestamp * 1000 ≤ tmark →
        (formatChat (lastSeenFor st' sessionId c.id) c).unreadCount = 0)
    ∧ (tmark < m.timestamp * 1000 →
        (formatChat (lastSeenFor st' sessionId c.id) c).unreadCount = c.unreadCount) := by
  have hst' : st' =
      { st with
        lastSeenMessages := aset st.lastSeenMessages sessionId
          (aset ((alookup st.lastSeenMessages sessionId).getD []) chatId tmark) } := by
    unfold markChatAsRead at hrec
    cases hs : alookup st.sessions sessionId with
    | none => simp [hs] at hrec
    | some sess =>
        simp only [hs] at hrec
        by_cases hr : sess.status = SessStatus.ready ∧ sess.hasClient = true
        · rw [if_pos hr] at hrec
          injection hrec with h
          exact h.symm
        · rw [if_neg hr] at hrec
          cases hrec
  have hseen : lastSeenFor st' sessionId c.id = some tmark := by
    rw [hst', hid]
    simp [lastSeenFor, alookup_aset_self]
  rw [hseen, formatChat_unreadCount_of_lastSeen tmark c m hm]
  constructor
  · intro hle
    rw [if_pos ⟨by omega, hfm, hle⟩]
  · intro hgt
    have hc : ¬ (tmark ≠ 0 ∧ m.fromMe = false ∧ m.timestamp * 1000 ≤ tmark) := by
      intro hcontra
      omega
    rw [if_neg hc]

/-- Witness for C5: a concrete mark-read at `T' = 1700000005000` over a chat
whose last incoming message is at `1700000000000` ms yields a reported unread
count of zero. -/
theorem markChatAsRead_unread_override_witness :
    markChatAsRead cachedState "s" "111@c.us" 1700000005000
        = .ok { cachedState with lastSeenMessages := [("s", [("111@c.us", 1700000005000)])] }
    ∧ (formatChat
        (lastSeenFor
          { cachedState with lastSeenMessages := [("s", [("111@c.us", 1700000005000)])] }
          "s" sampleChat.id)
        sampleChat).unreadCount = 0 :=
  ⟨by decide,
    (markChatAsRead_unread_override cachedState
        { cachedState with lastSeenMessages := [("s", [("111@c.us", 1700000005000)])] }
        "s" "111@c.us" 1700000005000 sampleChat
        { body := "hi", timestamp := 1700000000, fromMe := false, mtype := .chat }
        (by decide) rfl (by decide) rfl rfl).1 (by decide)⟩

/-! ## Throttle lemmas shared by the rate-limiting claims -/

/-- A `getChats` call that finds a cache entry for its key and a recorded
fetch attempt less than 30 s old never issues an upstream fetch. -/
theorem fetch_skipped_of_recent (st : ServiceState) (sessionId : String)
    (offset limit : Nat) (archived : Bool) (now fetchEnd : Int) (pageClosed : Bool)
    (outcome : FetchOutcome) (v : Int)
    (hc : (alookup st.chatCache (cacheKey sessionId archived)).isSome = true)
    (hl : alookup st.lastFetchTime sessionId = some v)
    (hrecent : now - v < 30000) :
    (getChats st sessionId offset limit archived now fetchEnd pageClosed
      outcome).fetchAttempted = false := by
  unfold getChats
  split
  · rfl
  · rename_i sess hs
    by_cases hr : sess.status = SessStatus.ready ∧ sess.hasClient = true
    · rw [if_pos hr]
      unfold getChatsAuthed
      simp only [hl, Option.getD_some]
      split
      · rename_i c hcc
        rw [if_pos (Or.inr hrecent)]
        exact serveFromList_fetchAttempted ..
      · rename_i hcc
        rw [hcc] at hc
        simp at hc
    · rw [if_neg hr]

/-- After a `getChats` call that did issue an upstream fetch, starting from a
state holding a cache entry for the key, the resulting state still holds a
cache entry for the key and records an attempt timestamp no earlier than the
call's start instant. -/
theorem post_fetch_state (st : ServiceState) (sessionId : String)
    (offset limit : Nat) (archived : Bool) (now fetchEnd : Int) (pageClosed : Bool)
    (outcome : FetchOutcome)
    (he : now ≤ fetchEnd)
    (hc : (alookup st.chatCache (cacheKey sessionId archived)).isSome = true)
    (hf : (getChats st sessionId offset limit archived now fetchEnd pageClosed
      outcome).fetchAttempted = true) :
    (alookup (getChats st sessionId offset limit archived now fetchEnd pageClosed
        outcome).state.chatCache (cacheKey sessionId archived)).isSome = true
    ∧ ∃ v, alookup (getChats st sessionId offset limit archived now fetchEnd pageClosed
        outcome).state.lastFetchTime sessionId = some v ∧ now ≤ v := by
  unfold getChats at hf ⊢
  cases hs : alookup st.sessions sessionId with
  | none => simp [hs] at hf
  | some sess =>
      simp only [hs] at hf ⊢
      by_cases hr : sess.status = SessStatus.ready ∧ sess.hasClient = true
      · rw [if_pos hr] at hf ⊢
        unfold getChatsAuthed at hf ⊢
        cases hcc : alookup st.chatCache (cacheKey sessionId archived) with
        | none => rw [hcc] at hc; simp at hc
        | some c =>
            simp only [hcc] at hf ⊢
            by_cases hfresh : now - c.timestamp < 120000 ∨
                now - (alookup st.lastFetchTime sessionId).getD 0 < 30000
            · rw [if_pos hfresh] at hf
              rw [serveFromList_fetchAttempted] at hf
              cases hf
            · rw [if_neg hfresh] at hf ⊢
              unfold getChatsFetch at hf ⊢
              by_cases hpc : pageClosed = true
              · rw [if_pos hpc] at hf
                cases hf
              · rw [if_neg hpc] at hf ⊢
                cases outcome with
                | ok upstream =>
                    refine ⟨?_, fetchEnd, ?_, he⟩
                    · rw [serveFromList_chatCache]
                      simp [alookup_aset_self]
                    · rw [serveFromList_lastFetchTime]
                      simp [alookup_aset_self]
                | timeout =>
                    refine ⟨?_, fetchEnd + min (30000 * 2) 300000 - 30000, ?_, by omega⟩
                    · rw [serveFromList_chatCache]
                      exact hc
                    · rw [serveFromList_lastFetchTime]
                      simp [alookup_aset_self]
      · rw [if_neg hr] at hf
        cases hf

/-! ## C1 — at most one upstream fetch per throttle window (corrected) -/

/-- C1 counterexample: with no cache entry for the key, two `listChats` calls
for the same (session, archived) key only 20 s apart (well within the 30 s
minimum interval) both attempt an upstream fetch — the pre-recorded attempt
timestamp does not stop the second call because the cache-serving branch
requires an existing cache entry. -/
theorem getChats_throttle_pair_cex :
    (getChats noCacheState "s" 0 20 false 1000000 1015000 false .timeout).fetchAttempted = true
    ∧ (getChats (getChats noCacheState "s" 0 20 false 1000000 1015000 false .timeout).state
        "s" 0 20 false 1020000 1035000 false .timeout).fetchAttempted = true
    ∧ ((1020000 : Int) - 1000000 < 30000) := by decide

/-- C1 amended: for every pair of `listChats` calls for the same
(session, archived) key issued within the 30 s minimum throttle interval of
each other, at most one upstream fetch is attempted **provided a cache entry
for that key exists when the first call runs** (the attempt timestamp is
recorded before the upstream call, so the second call serves the freshly
stored or stale entry); with no cache entry the throttle is bypassed and
both calls may fetch. -/
theorem getChats_throttle_pair_single_fetch (st : ServiceState) (sessionId : String)
    (archived : Bool) (o1 l1 o2 l2 : Nat) (t1 e1 t2 e2 : Int) (pc1 pc2 : Bool)
    (out1 out2 : FetchOutcome)
    (hcache : (alookup st.chatCache (cacheKey sessionId archived)).isSome = true)
    (he1 : t1 ≤ e1)
    (h12 : t2 - t1 < 30000) :
    (getChats st sessionId o1 l1 archived t1 e1 pc1 out1).fetchAttempted = true →
    (getChats (getChats st sessionId o1 l1 archived t1 e1 pc1 out1).state
        sessionId o2 l2 archived t2 e2 pc2 out2).fetchAttempted = false := by
  intro hf1
  obtain ⟨hc', v, hv, htv⟩ :=
    post_fetch_state st sessionId o1 l1 archived t1 e1 pc1 out1 he1 hcache hf1
  exact fetch_skipped_of_recent _ sessionId o2 l2 archived t2 e2 pc2 out2 v hc' hv
    (by omega)

/-- Witness for C1 (amended): a stale cache entry, a first call that fetches
fresh data, and a second call 10 s later that is served from cache without a
fetch. -/
theorem getChats_throttle_pair_single_fetch_witness :
    (getChats staleCachedState "s" 0 20 false 200000 201000 false (.ok [])).fetchAttempted = true
    ∧ (getChats (getChats staleCachedState "s" 0 20 false 200000 201000 false (.ok [])).state
        "s" 0 20 false 210000 211000 false (.ok [])).fetchAttempted = false :=
  ⟨by decide,
    getChats_throttle_pair_single_fetch staleCachedState "s" false 0 20 0 20
      200000 201000 210000 211000 false false (.ok []) (.ok [])
      (by decide) (by decide) (by decide) (by decide)⟩

/-! ## C2 — rate-limited error without cache (corrected) -/

/-- C2 counterexample: a ready session within the 30 s minimum interval of
its last fetch attempt and with no cache entry does **not** fail with the
rate-limited error without fetching — it attempts the upstream fetch
(throttle bypassed) and, when the fetch succeeds, returns the fresh page. -/
theorem getChats_rate_limited_cex :
    ((1010000 : Int) - 1000000 < 30000)
    ∧ alookup throttledNoCacheState.chatCache (cacheKey "s" false) = none
    ∧ (getChats throttledNoCacheState "s" 0 20 false 1010000 1011000 false
        (.ok [sampleChat])).fetchAttempted = true
    ∧ (getChats throttledNoCacheState "s" 0 20 false 1010000 1011000 false
        (.ok [sampleChat])).result
        = .ok { chats := [formatChat none sampleChat], hasMore := false, total := 1 } := by
  decide

/-- C2 amended: on a ready session with no cache entry for the
(session, archived) key and a usable page, `getChats` always attempts the
upstream fetch regardless of the throttle state; the
`rate-limited, retry later` error is raised only when that fetch times out
(and still no cache entry exists). -/
theorem getChats_no_cache_always_fetches (st : ServiceState) (sessionId : String)
    (offset limit : Nat) (archived : Bool) (now fetchEnd : Int)
    (outcome : FetchOutcome) (sess : SessionModel)
    (hs : alookup st.sessions sessionId = some sess)
    (h1 : sess.status = SessStatus.ready)
    (h2 : sess.hasClient = true)
    (hnc : alookup st.chatCache (cacheKey sessionId archived) = none) :
    (getChats st sessionId offset limit archived now fetchEnd false
        outcome).fetchAttempted = true
    ∧ (outcome = .timeout →
        (getChats st sessionId offset limit archived now fetchEnd false
          outcome).result = .error .rateLimited) := by
  unfold getChats
  simp only [hs, h1, h2, and_self, if_true, true_and]
  unfold getChatsAuthed
  simp only [hnc]
  unfold getChatsFetch
  simp only [Bool.false_eq_true, if_false]
  cases outcome with
  | ok upstream =>
      exact ⟨serveFromList_fetchAttempted .., by intro h; cases h⟩
  | timeout => exact ⟨rfl, fun _ => rfl⟩

/-- Witness for C2 (amended): the concrete throttled no-cache state; the call
with a timing-out fetch attempts the fetch and surfaces the rate-limited
error. -/
theorem getChats_no_cache_always_fetches_witness :
    (getChats throttledNoCacheState "s" 0 20 false 1010000 1011000 false
        .timeout).fetchAttempted = true
    ∧ (getChats throttledNoCacheState "s" 0 20 false 1010000 1011000 false
        .timeout).result = .error .rateLimited :=
  (fun h => ⟨h.1, h.2 rfl⟩)
    (getChats_no_cache_always_fetches throttledNoCacheState "s" 0 20 false
      1010000 1011000 .timeout readySession (by decide) rfl rfl (by decide))

/-! ## C3 — backoff growth (evaluation of the code at the failing trace) -/

/-- C3 evaluation: three consecutive timed-out fetch attempts (resolving at
15000, 115000 and 215000) each set `lastFetchTime` to the resolution instant
plus `min(30000·2, 300000) − 30000 = 30000`, so the enforced distance from
each timeout to the next allowed attempt (`lastFetchTime + 30000`) is the
constant `60000` all three times — the interval never strictly increases and
the 5-minute cap is never approached, because the backoff is computed from
the constant `MIN_FETCH_INTERVAL` instead of a stored per-session interval.
A subsequent successful fetch leaves `lastFetchTime` at its resolution
instant, i.e. the base 30 s interval. -/
theorem backoff_interval_constant_after_timeouts :
    (getChats noCacheState "s" 0 20 false 0 15000 false .timeout).fetchAttempted = true
    ∧ alookup (getChats noCacheState "s" 0 20 false 0 15000 false
        .timeout).state.lastFetchTime "s" = some 45000
    ∧ (getChats (getChats noCacheState "s" 0 20 false 0 15000 false .timeout).state
        "s" 0 20 false 100000 115000 false .timeout).fetchAttempted = true
    ∧ alookup (getChats (getChats noCacheState "s" 0 20 false 0 15000 false .timeout).state
        "s" 0 20 false 100000 115000 false .timeout).state.lastFetchTime "s" = some 145000
    ∧ (getChats (getChats (getChats noCacheState "s" 0 20 false 0 15000 false .timeout).state
        "s" 0 20 false 100000 115000 false .timeout).state
        "s" 0 20 false 200000 215000 false .timeout).fetchAttempted = true
    ∧ alookup (getChats (getChats (getChats noCacheState "s" 0 20 false 0 15000 false
        .timeout).state "s" 0 20 false 100000 115000 false .timeout).state
        "s" 0 20 false 200000 215000 false .timeout).state.lastFetchTime "s" = some 245000
    ∧ alookup (getChats (getChats (getChats (getChats noCacheState "s" 0 20 false 0 15000 false
        .timeout).state "s" 0 20 false 100000 115000 false .timeout).state
        "s" 0 20 false 200000 215000 false .timeout).state
        "s" 0 20 false 300000 310000 false (.ok [sampleChat])).state.lastFetchTime "s"
        = some 310000
    ∧ ((45000 : Int) + 30000) - 15000 = 60000
    ∧ ((145000 : Int) + 30000) - 115000 = 60000
    ∧ ((245000 : Int) + 30000) - 215000 = 60000
    ∧ ((310000 : Int) + 30000) - 310000 = 30000
    ∧ min ((30000 : Int) * 2) 300000 = 60000 := by
  decide

/-! ## C4 — cache invalidation after sendMessage / markChatAsRead
(evaluation of the code at the failing input) -/

/-- C4 evaluation: `sendMessage` deletes chat-cache key `"s"` while the entry
is stored under `"s-normal"`, so the state is unchanged and the entry
survives; `markChatAsRead` performs no cache deletion at all; and the next
`getChats` call then serves that prior entry as a fresh cache hit without
any upstream fetch. -/
theorem sendMessage_cache_invalidation_noop :
    sendMessage cachedState "s" = .ok cachedState
    ∧ alookup cachedState.chatCache (cacheKey "s" false) = some sampleEntry
    ∧ markChatAsRead cachedState "s" "111@c.us" 1005000
        = .ok { cachedState with lastSeenMessages := [("s", [("111@c.us", 1005000)])] }
    ∧ alookup ({ cachedState with
          lastSeenMessages := [("s", [("111@c.us", 1005000)])] } : ServiceState).chatCache
        (cacheKey "s" false) = some sampleEntry
    ∧ (getChats cachedState "s" 0 20 false 1010000 1011000 false .timeout).fetchAttempted
        = false
    ∧ (getChats cachedState "s" 0 20 false 1010000 1011000 false .timeout).result
        = .ok { chats := [formatChat none sampleChat], hasMore := false, total := 1 } := by
  decide

/-! ## C8 — forced cleanup scope (evaluation of the code at the failing
input) -/

/-- C8 evaluation: on a positive page-closed match, `getChats` performs the
forced cleanup and surfaces the uniform disconnected error, and the cleanup
removes the session from the registry and clears the throttle state — but
the chat-cache deletion uses the bare session id while entries live under
the (session, partition) keys, so both cache entries survive, and the
last-seen state is not cleared at all. -/
theorem forceCleanup_incomplete_cleanup :
    alookup (forceCleanupSession cleanupState "s").sessions "s" = none
    ∧ alookup (forceCleanupSession cleanupState "s").lastFetchTime "s" = none
    ∧ alookup (forceCleanupSession cleanupState "s").chatCache (cacheKey "s" false)
        = some sampleEntry
    ∧ alookup (forceCleanupSession cleanupState "s").chatCache (cacheKey "s" true)
        = some { chats := [], timestamp := 5 }
    ∧ alookup (forceCleanupSession cleanupState "s").lastSeenMessages "s" = some [("c", 7)]
    ∧ (getChats cleanupState "s" 0 20 false 2000000 2000001 true .timeout).result
        = .error .disconnected
    ∧ (getChats cleanupState "s" 0 20 false 2000000 2000001 true .timeout).state
        = forceCleanupSession cleanupState "s" := by
  decide

end WaSched
